import Mathlib

/-!
Verification of the AI-Powered-Resume-Parser repository.

This file gives a shallow embedding, in Lean 4, of the data-transforming
parts of the repository that the specification's claims talk about:

* `src/utils/validators.py` — `validate_email`, `validate_phone`,
  `sanitize_filename`;
* `src/utils/pdf_extractor.py` — `extract_text_from_pdf` (the tiered
  pdfplumber → PyPDF2 → OCR fallback chain), with the three underlying
  extraction methods abstracted as string parameters and the list of
  methods actually invoked made explicit;
* `src/services/ai_service.py` — `LightweightAIService.parse_resume`
  and its deterministic regex extractors, with the external language
  model call abstracted as a function parameter that may fail;
* `src/services/parser_service.py` — `_post_process`,
  `_calculate_total_experience`, and the `txt` branch of `_extract_text`
  (UTF-8 decoding with `errors='ignore'`);
* `src/api/routes/resumes.py` — `get_resume`, `update_resume`,
  `delete_resume` over the in-memory `resumes_db` store, including the
  exception-wrapping behaviour of their `try/except Exception` blocks.

Python values flowing through the pipeline are modelled by the inductive
type `JVal` (Python dicts become association lists that keep insertion
order, as Python dicts do); Python floats are modelled as exact rationals
(no claim in scope depends on binary-float rounding error); Python
exceptions are modelled with `Except`.  Each definition keeps the name of
the Python function it embeds where Lean allows it.
-/

/-! ## Python string primitives -/

/-- Python's `\w` character class restricted to ASCII (the regexes in the
repository are applied to resume text; `[a-zA-Z0-9_]`). -/
def isWordChar (c : Char) : Bool :=
  c.isAlpha || c.isDigit || c == '_'

/-- Python's `\s` character class on ASCII: space, tab, newline, carriage
return, vertical tab, form feed. -/
def isPyWS (c : Char) : Bool :=
  c == ' ' || c == '\t' || c == '\n' || c == '\r' || c == '\x0b' || c == '\x0c'

/-- Python's `str.strip()` (no argument): remove whitespace from both ends. -/
def pyStrip (s : String) : String :=
  String.mk (((s.toList.dropWhile isPyWS).reverse.dropWhile isPyWS).reverse)

/-- Digit-run parser used by `pyInt?`. -/
def parseDigits (cs : List Char) : Option Nat :=
  if cs ≠ [] && cs.all Char.isDigit then
    some (cs.foldl (fun acc c => acc * 10 + (c.toNat - '0'.toNat)) 0)
  else
    none

/-- Python's `int(s)` on a string: optional surrounding whitespace, an
optional sign, then one or more decimal digits; anything else raises
`ValueError`, modelled as `none`. -/
def pyInt? (s : String) : Option Int :=
  match (pyStrip s).toList with
  | '+' :: rest => (parseDigits rest).map Int.ofNat
  | '-' :: rest => (parseDigits rest).map (fun n => -(n : Int))
  | cs => (parseDigits cs).map Int.ofNat

/-! ## validators.py -/

/-- Embeds `validate_email` (`src/utils/validators.py`):
`re.match(r"^[\w\.-]+@[\w\.-]+\.\w+$", email)`.  The pattern matches the
whole string (a final `'\n'` is tolerated by `$`): one or more
word/dot/dash characters, `@`, one or more word/dot/dash characters, a
dot, one or more word characters.  The backtracking search for the final
`\.\w+` is expressed as an existential over split positions. -/
def emailCh (c : Char) : Bool :=
  isWordChar c || c == '.' || c == '-'

/-- Drops a single trailing newline, the way `$` treats the end of a
string in a Python (non-MULTILINE) regex. -/
def chopFinalNewline (cs : List Char) : List Char :=
  match cs.reverse with
  | '\n' :: rest => rest.reverse
  | _ => cs

def validate_email (email : String) : Bool :=
  let cs := chopFinalNewline email.toList
  (List.range cs.length).any fun i =>
    cs.getD i ' ' == '@' &&
    (decide (0 < i)) && (cs.take i).all emailCh &&
    (let rest := cs.drop (i + 1)
     (List.range rest.length).any fun j =>
       rest.getD j ' ' == '.' &&
       (decide (0 < j)) && (rest.take j).all emailCh &&
       (decide (j + 1 < rest.length)) && (rest.drop (j + 1)).all isWordChar)

/-- Embeds `validate_phone` (`src/utils/validators.py`):
`re.match(r"^\+?[0-9]{7,15}$", phone)` — an optional `+`, then 7 to 15
digits spanning the rest of the string (modulo a final newline). -/
def validate_phone (phone : String) : Bool :=
  let cs := chopFinalNewline phone.toList
  let digits := match cs with
    | '+' :: rest => rest
    | _ => cs
  digits.all Char.isDigit && decide (7 ≤ digits.length) && decide (digits.length ≤ 15)

/-- Character class `[A-Za-z0-9_.-]` of `sanitize_filename`. -/
def allowedFilenameChar (c : Char) : Bool :=
  c.isAlpha || c.isDigit || c == '_' || c == '.' || c == '-'

/-- Embeds `sanitize_filename` (`src/utils/validators.py`):
`re.sub(r'[^A-Za-z0-9_.-]', '_', filename)`.  The pattern is a single
negated character class, so the substitution acts character by
character. -/
def sanitize_filename (filename : String) : String :=
  String.mk (filename.toList.map (fun c => if allowedFilenameChar c then c else '_'))

/-! ## pdf_extractor.py -/

/-- The three extraction methods `extract_text_from_pdf` can invoke. -/
inductive PdfMethod where
  | plumber
  | pypdf2
  | ocr
deriving DecidableEq, Repr

/-- Embeds `extract_text_from_pdf` (`src/utils/pdf_extractor.py`).  The
texts produced by `_extract_with_pdfplumber`, `_extract_with_pypdf2` and
`_extract_with_ocr` are abstracted as the parameters `plumberText`,
`pypdf2Text` and `ocrText` (each of those helpers catches its own
exceptions and returns a string, `""` on failure).  `use_ocr` is the
function's `use_ocr` argument and `ocrAvailable` the module's
`OCR_AVAILABLE` flag.  Alongside the result we return the list of methods
the code invoked, in order, so that cost-avoidance claims are statable.
Each `if text and len(text.strip()) > 100: return text` early exit and
the final `if not text or len(text.strip()) < 50: raise ValueError`
check are reproduced literally; the surrounding `except/raise` block
re-raises unchanged. -/
def extract_text_from_pdf (plumberText pypdf2Text ocrText : String)
    (use_ocr ocrAvailable : Bool) : Except String String × List PdfMethod :=
  let t1 := plumberText
  if t1 ≠ "" ∧ 100 < (pyStrip t1).length then
    (.ok t1, [.plumber])
  else
    let t2 := pypdf2Text
    if t2 ≠ "" ∧ 100 < (pyStrip t2).length then
      (.ok t2, [.plumber, .pypdf2])
    else if use_ocr && ocrAvailable then
      let t3 := ocrText
      if t3 ≠ "" ∧ 100 < (pyStrip t3).length then
        (.ok t3, [.plumber, .pypdf2, .ocr])
      else if t3 = "" ∨ (pyStrip t3).length < 50 then
        (.error "Could not extract sufficient text from PDF", [.plumber, .pypdf2, .ocr])
      else
        (.ok t3, [.plumber, .pypdf2, .ocr])
    else if t2 = "" ∨ (pyStrip t2).length < 50 then
      (.error "Could not extract sufficient text from PDF", [.plumber, .pypdf2])
    else
      (.ok t2, [.plumber, .pypdf2])

/-! ## Python values

`JVal` models the dynamically typed Python values (parsed JSON-ish
dicts) flowing through the parser service.  Dicts are association lists
in insertion order, exactly the observable behaviour of a Python dict;
floats are exact rationals. -/

inductive JVal where
  | null
  | bool (b : Bool)
  | int (n : Int)
  | float (q : Rat)
  | str (s : String)
  | list (xs : List JVal)
  | dict (fields : List (String × JVal))
deriving Repr

/-- A Python dict: keys with values, in insertion order. -/
abbrev JObj := List (String × JVal)

/-- Lookup of the (first) binding of a key, `d.get(k)`-style. -/
def dget : JObj → String → Option JVal
  | [], _ => none
  | (k, v) :: fs, key => if k = key then some v else dget fs key

/-- Python dict assignment `d[k] = v`: replace the value in place when
the key is present, append the binding otherwise. -/
def dset : JObj → String → JVal → JObj
  | [], key, v => [(key, v)]
  | (k, w) :: fs, key, v =>
      if k = key then (k, v) :: fs else (k, w) :: dset fs key v

/-- Python `k in d`. -/
def hasKey (fs : JObj) (key : String) : Bool :=
  (dget fs key).isSome

/-- Python `d.update(u)`: assign every binding of `u`, in order. -/
def dupdate (fs u : JObj) : JObj :=
  u.foldl (fun acc kv => dset acc kv.1 kv.2) fs

/-- Python truthiness (`bool(v)`) for `JVal`. -/
def truthy : JVal → Bool
  | .null => false
  | .bool b => b
  | .int n => n != 0
  | .float q => q != 0
  | .str s => s ≠ ""
  | .list xs => !xs.isEmpty
  | .dict fs => !fs.isEmpty

/-- Python attribute access `v.get(key, dflt)`: only dicts have `.get`;
on any other value an `AttributeError` is raised. -/
def pyGet (v : JVal) (key : String) (dflt : JVal) : Except String JVal :=
  match v with
  | .dict fs => .ok ((dget fs key).getD dflt)
  | _ => .error "AttributeError"

/-! ## parser_service.py — `_calculate_total_experience` -/

/-- Python's `s.split('-')`: split at every `'-'`, keeping empty parts
(`''.split('-') == ['']`, `'-'.split('-') == ['', '']`). -/
def pySplitDash (s : String) : List String :=
  (s.toList.foldr
    (fun c acc =>
      match acc with
      | cur :: rest => if c = '-' then [] :: cur :: rest else (c :: cur) :: rest
      | [] => [[c]])
    [[]]).map String.mk

/-- Number of tenths in `round(num / den, 1)` (`den > 0`), rounding half
to even the way Python's `round` does on the exact ties that occur here
(the only exact decimal ties of `months / 12` are binary-representable,
so the binary double agrees with the exact rational). -/
def roundHalfEvenTenths (num den : Int) : Int :=
  let scaled := num * 10
  let q := scaled / den
  let r := scaled % den
  if 2 * r < den then q
  else if den < 2 * r then q + 1
  else if q % 2 = 0 then q else q + 1

/-- Python's `round(num / den, 1)` as an exact rational. -/
def pyRound1 (num den : Int) : Rat :=
  (roundHalfEvenTenths num den : Rat) / 10

/-- Python's `datetime.now().strftime('%Y-%m')` for the (abstracted)
current year and month. -/
def nowStr (nowYear nowMonth : Int) : String :=
  toString nowYear ++ "-" ++ (if nowMonth < 10 then "0" else "") ++ toString nowMonth

/-- The contribution of one experience entry to the loop body of
`_calculate_total_experience` (`src/services/parser_service.py`):

* `exp.get('startDate')` / `exp.get('endDate')` — an `AttributeError`
  on a non-dict entry propagates (`.error`);
* `end_date = exp.get('endDate') or datetime.now().strftime('%Y-%m')`;
* a falsy `startDate` skips the entry (`0` months);
* a truthy non-string `startDate` raises `AttributeError` at
  `start_date.split('-')`;
* `int()` failures (`ValueError`) inside the `try` are caught by the
  `except (ValueError, IndexError)` and skip the entry (`0` months);
* a missing start month defaults to `1`, a missing end month to `12`;
  a truthy non-string `endDate` falls into the
  `[datetime.now().year, datetime.now().month]` branch;
* the entry contributes `max(0, (endY - startY) * 12 + (endM - startM))`. -/
def entryMonths (nowYear nowMonth : Int) (e : JVal) : Except String Int :=
  match e with
  | .dict fs =>
    let sd := (dget fs "startDate").getD .null
    let edRaw := (dget fs "endDate").getD .null
    let ed : JVal := if truthy edRaw then edRaw else .str (nowStr nowYear nowMonth)
    if truthy sd then
      match sd with
      | .str s =>
        let startParts := pySplitDash s
        let endYM : Option Int × Option Int :=
          match ed with
          | .str es =>
            let endParts := pySplitDash es
            (pyInt? (endParts.head?.getD ""),
             if 1 < endParts.length then pyInt? (endParts[1]?.getD "") else some 12)
          | _ => (some nowYear, some nowMonth)
        let contribution : Option Int := do
          let startYear ← pyInt? (startParts.head?.getD "")
          let startMonth ← if 1 < startParts.length then pyInt? (startParts[1]?.getD "") else some 1
          let endYear ← endYM.1
          let endMonth ← endYM.2
          some (max 0 ((endYear - startYear) * 12 + (endMonth - startMonth)))
        .ok (contribution.getD 0)
      | _ => .error "AttributeError"
    else
      .ok 0
  | _ => .error "AttributeError"

/-- Embeds `_calculate_total_experience` (`src/services/parser_service.py`).
A falsy `experiences` value returns `0.0` at once; a truthy non-list
raises when the `for` loop tries to use its elements (string and dict
iterate over strings, which lack `.get`).  Otherwise the months of every
entry are summed and `round(total_months / 12, 1)` is returned. -/
def calculateTotalExperience (nowYear nowMonth : Int) (experiences : JVal) :
    Except String Rat :=
  if !truthy experiences then
    .ok 0
  else
    match experiences with
    | .list xs => do
      let totalMonths ← xs.foldlM (fun acc e => do
        let m ← entryMonths nowYear nowMonth e
        pure (acc + m)) (0 : Int)
      .ok (pyRound1 totalMonths 12)
    | _ => .error "TypeError"

/-! ## parser_service.py — `_post_process` -/

/-- Reads `data.get('personalInfo', {}).get('contact', {}).get(field)`
from `_post_process`; an `AttributeError` is raised when the stored
`personalInfo` or `contact` value is not a dict. -/
def readContactField (d : JObj) (field : String) : Except String JVal :=
  match pyGet ((dget d "personalInfo").getD (.dict [])) "contact" (.dict []) with
  | .error e => .error e
  | .ok contact => pyGet contact field .null

/-- Performs `data['personalInfo']['contact'][flag] = b`.  The callers
only reach this after finding a truthy value under
`personalInfo.contact`, so both intermediate dicts exist; the fallback
branches (returning `d` unchanged) are unreachable. -/
def setContactFlag (d : JObj) (flag : String) (b : Bool) : JObj :=
  match dget d "personalInfo" with
  | some (.dict pi) =>
    (match dget pi "contact" with
     | some (.dict contact) =>
        dset d "personalInfo" (.dict (dset pi "contact" (.dict (dset contact flag (.bool b)))))
     | _ => d)
  | _ => d

/-- One email/phone validation block of `_post_process`
(`src/services/parser_service.py`): when the contact field is truthy the
validator runs on it and the result is stored as a boolean flag next to
it; a truthy non-string raises `TypeError` inside `re.match`. -/
def validateContactField (d : JObj) (field flag : String) (validator : String → Bool) :
    Except String JObj :=
  match readContactField d field with
  | .error e => .error e
  | .ok v =>
    if truthy v then
      match v with
      | .str s => .ok (setContactFlag d flag (validator s))
      | _ => .error "TypeError"
    else
      .ok d

/-- The summary coercion of `_post_process`: a string becomes
`{"text": s}`, a dict is kept, anything else becomes `{}` (this also
covers an absent summary, whose `data.get('summary')` is `None`). -/
def summaryCoerce : Option JVal → JObj
  | some (.str s) => [("text", .str s)]
  | some (.dict fs) => fs
  | _ => []

/-- Steps 3–4 of `_post_process`: compute the total experience from
`data.get('experience', [])`, coerce `data['summary']` to a dict and
store the result under `'totalYearsOfExperience'`.  In the source the
coercion assigns `data['summary']` and the total is then written into
that dict; composing the two assignments into one `dset` yields the same
final dict. -/
def ppSummaryStep (nowYear nowMonth : Int) (d : JObj) : Except String JObj :=
  match calculateTotalExperience nowYear nowMonth ((dget d "experience").getD (.list [])) with
  | .error e => .error e
  | .ok total =>
    .ok (dset d "summary"
      (.dict (dset (summaryCoerce (dget d "summary")) "totalYearsOfExperience" (.float total))))

/-- Step 5 of `_post_process`: the fixed-weight confidence scores. -/
def confidenceScoresOf (d : JObj) (contact : JVal) : JObj := [
  ("overall", .float 0.85),
  ("contactInfo", .float (if truthy contact then 0.90 else 0.5)),
  ("experience", .float (if truthy ((dget d "experience").getD .null) then 0.85 else 0.3)),
  ("education", .float (if truthy ((dget d "education").getD .null) then 0.80 else 0.4)),
  ("skills", .float (if truthy ((dget d "skills").getD .null) then 0.75 else 0.2))]

def ppConfidenceStep (d : JObj) : Except String JObj :=
  match pyGet ((dget d "personalInfo").getD (.dict [])) "contact" .null with
  | .error e => .error e
  | .ok contact => .ok (dset d "confidenceScores" (.dict (confidenceScoresOf d contact)))

/-- The `"summary"` entry of `flat_output` in `_post_process`:
`data.get("summary", {}).get("text", "") if isinstance(data.get("summary"), dict) else data.get("summary", "")`. -/
def flatSummaryOf (d : JObj) : JVal :=
  match dget d "summary" with
  | some (.dict fs) => (dget fs "text").getD (.str "")
  | some v => v
  | none => .str ""

/-- The `contact_info` entry of `flat_output`: the five `.get(...,
"Not found")` reads on the contact dict. -/
def flatContactInfoOf (contact : JObj) : JVal :=
  .dict [
    ("email", (dget contact "email").getD (.str "Not found")),
    ("phone", (dget contact "phone").getD (.str "Not found")),
    ("linkedin", (dget contact "linkedin").getD (.str "Not found")),
    ("location", (dget contact "location").getD (.str "Not found")),
    ("portfolio", (dget contact "portfolio").getD (.str "Not found"))]

/-- Step 6 of `_post_process`: build the flattened
`{name, contact_info, summary}` view and `data.update(flat_output)` it
into the profile.  The five `.get` calls on the contact value all
succeed (it is a dict) or all raise `AttributeError`, so they are
gathered into one dict match. -/
def ppFlatStep (d : JObj) : Except String JObj :=
  match pyGet ((dget d "personalInfo").getD (.dict [])) "name" (.str "Not found") with
  | .error e => .error e
  | .ok name =>
    match pyGet ((dget d "personalInfo").getD (.dict [])) "contact" (.dict []) with
    | .error e => .error e
    | .ok contactv =>
      match contactv with
      | .dict contact =>
        .ok (dupdate d [
          ("name", name),
          ("contact_info", flatContactInfoOf contact),
          ("summary", flatSummaryOf d)])
      | _ => .error "AttributeError"

/-- Embeds `_post_process` (`src/services/parser_service.py`), with the
current date abstracted as `nowYear`/`nowMonth` for the experience
computation.  Python exceptions escaping any step propagate to the
caller (`parse_resume` re-raises them), modelled by `Except`. -/
def post_process (nowYear nowMonth : Int) (d : JObj) : Except String JObj :=
  match validateContactField d "email" "emailValid" validate_email with
  | .error e => .error e
  | .ok d1 =>
    match validateContactField d1 "phone" "phoneValid" validate_phone with
    | .error e => .error e
    | .ok d2 =>
      match ppSummaryStep nowYear nowMonth d2 with
      | .error e => .error e
      | .ok d3 =>
        match ppConfidenceStep d3 with
        | .error e => .error e
        | .ok d4 => ppFlatStep d4

/-- The value the flattened view exposes as `summary` for an input
profile: the `text` field of the coerced summary dict, defaulting to
`""`.  Used to state what `post_process` leaves under the top-level
`summary` key. -/
def flatTextOf (d : JObj) : JVal :=
  (dget (summaryCoerce (dget d "summary")) "text").getD (.str "")

/-- Decidable side condition for idempotence of `post_process`: whenever
the input summary is a dict carrying a `text` entry, that entry is a
string. -/
def summaryTextOk (d : JObj) : Bool :=
  match dget d "summary" with
  | some (.dict fs) =>
    match dget fs "text" with
    | some (.str _) => true
    | none => true
    | some _ => false
  | _ => true

/-! ## parser_service.py — `_extract_text`, `txt` branch

`file_content.decode('utf-8', errors='ignore')`: CPython's UTF-8 decoder
with the `ignore` error handler.  Well-formed sequences decode to their
scalar value; an ill-formed portion is skipped following the "maximal
subpart" convention CPython implements (an invalid lead byte is skipped
on its own; a truncated or interrupted multi-byte sequence drops the
lead byte together with the continuation bytes already accepted, and
decoding resumes at the offending byte).  Bytes are `Nat`s below 256. -/

/-- Continuation byte test `0x80 ≤ b ≤ 0xBF`. -/
def isCont (b : Nat) : Bool := 0x80 ≤ b && b ≤ 0xBF

/-- Range of the first continuation byte after lead `b1` (UTF-8 shortest
form: `E0` needs `A0..BF`, `ED` excludes surrogates, `F0` needs
`90..BF`, `F4` caps at `8F`). -/
def contOkAfter (b1 b2 : Nat) : Bool :=
  if b1 = 0xE0 then 0xA0 ≤ b2 && b2 ≤ 0xBF
  else if b1 = 0xED then 0x80 ≤ b2 && b2 ≤ 0x9F
  else if b1 = 0xF0 then 0x90 ≤ b2 && b2 ≤ 0xBF
  else if b1 = 0xF4 then 0x80 ≤ b2 && b2 ≤ 0x8F
  else isCont b2

/-- Worker for `pyDecodeUtf8Ignore`.  Every step consumes at least one
byte, so running it with fuel `bs.length` (plus one) is exhaustive; the
fuel only makes the recursion structural. -/
def decodeUtf8IgnoreAux : Nat → List Nat → List Char
  | 0, _ => []
  | _ + 1, [] => []
  | fuel + 1, b :: bs =>
    if b ≤ 0x7F then
      Char.ofNat b :: decodeUtf8IgnoreAux fuel bs
    else if 0xC2 ≤ b && b ≤ 0xDF then
      match bs with
      | [] => []
      | b2 :: bs2 =>
        if isCont b2 then
          Char.ofNat ((b - 0xC0) * 64 + (b2 - 0x80)) :: decodeUtf8IgnoreAux fuel bs2
        else
          decodeUtf8IgnoreAux fuel bs
    else if 0xE0 ≤ b && b ≤ 0xEF then
      match bs with
      | [] => []
      | b2 :: bs2 =>
        if contOkAfter b b2 then
          match bs2 with
          | [] => []
          | b3 :: bs3 =>
            if isCont b3 then
              Char.ofNat ((b - 0xE0) * 4096 + (b2 - 0x80) * 64 + (b3 - 0x80)) ::
                decodeUtf8IgnoreAux fuel bs3
            else
              decodeUtf8IgnoreAux fuel bs2
        else
          decodeUtf8IgnoreAux fuel bs
    else if 0xF0 ≤ b && b ≤ 0xF4 then
      match bs with
      | [] => []
      | b2 :: bs2 =>
        if contOkAfter b b2 then
          match bs2 with
          | [] => []
          | b3 :: bs3 =>
            if isCont b3 then
              match bs3 with
              | [] => []
              | b4 :: bs4 =>
                if isCont b4 then
                  Char.ofNat ((b - 0xF0) * 262144 + (b2 - 0x80) * 4096 +
                      (b3 - 0x80) * 64 + (b4 - 0x80)) :: decodeUtf8IgnoreAux fuel bs4
                else
                  decodeUtf8IgnoreAux fuel bs3
            else
              decodeUtf8IgnoreAux fuel bs2
        else
          decodeUtf8IgnoreAux fuel bs
    else
      decodeUtf8IgnoreAux fuel bs

/-- Embeds `bytes.decode('utf-8', errors='ignore')`. -/
def pyDecodeUtf8Ignore (bytes : List Nat) : List Char :=
  decodeUtf8IgnoreAux (bytes.length + 1) bytes

/-- The `file_ext == 'txt'` branch of `ParserService._extract_text`
(`src/services/parser_service.py`, lines 129–130):
`text = file_content.decode('utf-8', errors='ignore')`.  The branch
raises nothing, so its embedding is a total function into `String`. -/
def extractTextTxt (file_content : List Nat) : String :=
  String.mk (pyDecodeUtf8Ignore file_content)

/-! ## ai_service.py — regex extraction and `parse_resume` -/

/-- Python's `str.strip()` applied to a regex group
(`name.group(1).strip()`). -/
def pyStripChars (cs : List Char) : List Char :=
  ((cs.dropWhile isPyWS).reverse.dropWhile isPyWS).reverse

/-- First match of `re.search(r"[\w\.-]+@[\w\.-]+", text)`.  Since `@`
belongs to neither character class, the leftmost match is anchored at
the first `@` that has a word/dot/dash character on both sides, and
greediness extends it to the maximal runs on both sides. -/
def searchEmailAux : List Char → List Char → Option String
  | left, '@' :: rest =>
    let l := left.takeWhile emailCh
    let r := rest.takeWhile emailCh
    if l ≠ [] ∧ r ≠ [] then
      some (String.mk (l.reverse ++ '@' :: r))
    else
      searchEmailAux ('@' :: left) rest
  | left, c :: rest => searchEmailAux (c :: left) rest
  | _, [] => none

/-- The `re.search(r"[\w\.-]+@[\w\.-]+", text)` of
`LightweightAIService.parse_resume`, returning `match.group(0)`. -/
def searchEmail (text : String) : Option String :=
  searchEmailAux [] text.toList

/-- Character class `[:\s]` from the name pattern. -/
def isNameSep (c : Char) : Bool := c == ':' || isPyWS c

/-- Character class `[A-Za-z\s]` from the name pattern. -/
def isNameChar (c : Char) : Bool := c.isAlpha || isPyWS c

/-- Backtracking tail of `Name[:\s]*([A-Za-z\s]+)`: try the greedy
`[:\s]*` length first and give back characters until the group
`[A-Za-z\s]+` can start. -/
def nameTailAt : Nat → List Char → Option (List Char)
  | k, rest =>
    match rest.drop k with
    | c :: _ =>
      if isNameChar c then
        some ((rest.drop k).takeWhile isNameChar)
      else
        match k with
        | 0 => none
        | k' + 1 => nameTailAt k' rest
    | [] =>
      match k with
      | 0 => none
      | k' + 1 => nameTailAt k' rest

/-- Match of the pattern tail `[:\s]*([A-Za-z\s]+)` at the given
position, returning group 1. -/
def matchNameTail (rest : List Char) : Option (List Char) :=
  nameTailAt ((rest.takeWhile isNameSep).length) rest

/-- The `re.search(r"Name[:\s]*([A-Za-z\s]+)", text)` of
`LightweightAIService.parse_resume`, returning `match.group(1)` (before
the caller's `.strip()`).  `re.search` retries at each successive start
position until the literal `Name` followed by the tail matches. -/
def searchNameAux : List Char → Option (List Char)
  | 'N' :: 'a' :: 'm' :: 'e' :: rest =>
    (match matchNameTail rest with
     | some g => some g
     | none => searchNameAux ('a' :: 'm' :: 'e' :: rest))
  | _ :: rest => searchNameAux rest
  | [] => none

def searchName (text : String) : Option (List Char) :=
  searchNameAux text.toList

/-- The fixed skill vocabulary of the `re.findall` in `parse_resume`, in
the pattern's alternation order. -/
def skillKeywords : List String :=
  ["Python", "Java", "C++", "Machine Learning", "FastAPI", "Django", "SQL"]

/-- Case-insensitive prefix test (`re.I`). -/
def matchesKeywordAt (cs : List Char) (kw : String) : Bool :=
  let k := kw.toList
  decide (k.length ≤ cs.length) &&
    ((cs.take k.length).map Char.toLower == k.map Char.toLower)

/-- Length of the first alternative of the skill pattern matching at
this position, if any (alternation tries the branches in order). -/
def firstKeywordLen (cs : List Char) : Option Nat :=
  skillKeywords.findSome? fun kw =>
    if matchesKeywordAt cs kw then some kw.toList.length else none

/-- Worker for `findSkills`, fuelled to keep the recursion structural
(every step consumes at least one character). -/
def findSkillsAux : Nat → List Char → List String
  | 0, _ => []
  | _ + 1, [] => []
  | fuel + 1, c :: rest =>
    match firstKeywordLen (c :: rest) with
    | some n =>
      String.mk ((c :: rest).take n) :: findSkillsAux fuel ((c :: rest).drop n)
    | none => findSkillsAux fuel rest

/-- The non-overlapping, left-to-right scan of
`re.findall(r"(Python|Java|C\+\+|Machine Learning|FastAPI|Django|SQL)", text, re.I)`,
returning the matched substrings with the casing they have in `text`. -/
def findSkills (text : String) : List String :=
  findSkillsAux (text.toList.length + 1) text.toList

/-- Python's `list(set(skills))`.  CPython's set iteration order for
strings is unspecified (hash randomization); it is modelled here as
first-occurrence order, and no claim depends on the order. -/
def pySetList (xs : List String) : List String :=
  xs.foldl (fun acc x => if acc.contains x then acc else acc ++ [x]) []

/-- Embeds `LightweightAIService.parse_resume`
(`src/services/ai_service.py`).  The call
`self.generate_summary(...)` runs the FLAN-T5 model; the external model
is abstracted as the parameter `model`, which returns the generated text
or fails (`tokenizer/model errors, timeouts`).  There is no
`try/except` around the call: a model failure propagates out of
`parse_resume`.  The regex extractions below it only run when the model
call returned. -/
def parse_resume (model : String → Except String String) (text : String) :
    Except String JVal := do
  let summary ← model ("Extract name, email, skills, education, and experience from: " ++ text)
  let name := searchName text
  let email := searchEmail text
  let skills := findSkills text
  .ok (.dict [
    ("personalInfo", .dict [
      ("name", .str (match name with
        | some g => String.mk (pyStripChars g)
        | none => "Not found")),
      ("contact", .dict [
        ("email", match email with
          | some e => .str e
          | none => .str "Not found")])]),
    ("skills", .list (match skills with
      | [] => []
      | s => (pySetList s).map JVal.str)),
    ("experience", .list []),
    ("education", .list []),
    ("summary", .str summary)])

/-! ## api/routes/resumes.py -/

/-- An HTTP error response, as raised through FastAPI's
`HTTPException`. -/
structure HTTPError where
  status : Nat
  detail : String
deriving DecidableEq, Repr

/-- Python's `str(exc)` for a `fastapi.HTTPException`
(`"<status>: <detail>"`), as interpolated by the
`except Exception as e: raise HTTPException(status_code=500, detail=str(e))`
handlers. -/
def httpErrorStr (e : HTTPError) : String :=
  toString e.status ++ ": " ++ e.detail

/-- The in-memory `resumes_db` store: identifier to record.  Each record
is the dict `{"id": ..., "status": ..., "data": ..., "uploadedAt": ...}`
built by `upload_resume`. -/
abbrev ResumeStore := List (String × JVal)

/-- Python `id in resumes_db`. -/
def storeHas (db : ResumeStore) (id : String) : Bool :=
  db.any (fun kv => kv.1 == id)

/-- Python `resumes_db[id]` where presence has been checked. -/
def storeGet (db : ResumeStore) (id : String) : JVal :=
  ((db.find? (fun kv => kv.1 == id)).map (·.2)).getD .null

/-- Python `del resumes_db[id]`. -/
def storeDel (db : ResumeStore) (id : String) : ResumeStore :=
  db.eraseP (fun kv => kv.1 == id)

/-- Embeds `get_resume` (`src/api/routes/resumes.py`).  The whole body
is inside `try: ... except Exception as e: raise HTTPException(500,
str(e))`, and `HTTPException` is an `Exception` subclass, so the
`HTTPException(404)` raised for a missing identifier is caught and
re-raised as a 500.  On success the response is
`{"id": id, **resume["data"]}`. -/
def get_resume (db : ResumeStore) (id : String) : Except HTTPError JVal :=
  let body : Except HTTPError JVal :=
    if !storeHas db id then
      .error ⟨404, "Resume not found"⟩
    else
      match pyGet (storeGet db id) "data" .null with
      | .ok (.dict fs) => .ok (.dict (dupdate [("id", .str id)] fs))
      | _ => .error ⟨500, "KeyError"⟩
  match body with
  | .ok r => .ok r
  | .error e => .error ⟨500, httpErrorStr e⟩

/-- The `for key, value in update_data.items()` merge loop of
`update_resume` (`src/api/routes/resumes.py`): a payload key absent from
the stored data is ignored; when both the stored and the new value are
dicts the stored dict is `.update`d (shallow merge); otherwise the
stored value is replaced. -/
def mergeStep (d : JObj) (kv : String × JVal) : JObj :=
  if hasKey d kv.1 then
    match dget d kv.1, kv.2 with
    | some (.dict o), .dict u => dset d kv.1 (.dict (dupdate o u))
    | _, _ => dset d kv.1 kv.2
  else d

def mergeUpdate (data : JObj) (update_data : JObj) : JObj :=
  update_data.foldl mergeStep data

/-- The per-key outcome of the merge loop: when both the stored and the
incoming value are dicts the stored one is shallow-merged
(`data[key].update(value)`), otherwise the incoming value replaces the
stored one. -/
def mergedValue : Option JVal → JVal → JVal
  | some (.dict o), .dict u => .dict (dupdate o u)
  | _, v => v

/-- Embeds `update_resume` (`src/api/routes/resumes.py`): 404 for an
unknown identifier (re-wrapped as a 500 by the same
`except Exception` pattern as `get_resume`), otherwise the merge loop
over `resume["data"]`, storing the merged dict back and returning
`{"id": id, **data}` together with the new store. -/
def update_resume (db : ResumeStore) (id : String) (update_data : JObj) :
    Except HTTPError JVal × ResumeStore :=
  let body : Except HTTPError (JVal × ResumeStore) :=
    if !storeHas db id then
      .error ⟨404, "Resume not found"⟩
    else
      match pyGet (storeGet db id) "data" .null with
      | .ok (.dict fs) =>
        let merged := mergeUpdate fs update_data
        let record := match storeGet db id with
          | .dict rec => JVal.dict (dset rec "data" (.dict merged))
          | v => v
        .ok (.dict (dupdate [("id", .str id)] merged),
          (db.map (fun kv => if kv.1 == id then (kv.1, record) else kv)))
      | _ => .error ⟨500, "KeyError"⟩
  match body with
  | .ok (r, db') => (.ok r, db')
  | .error e => (.error ⟨500, httpErrorStr e⟩, db)

/-- Embeds `delete_resume` (`src/api/routes/resumes.py`): 404 for an
unknown identifier (re-wrapped as a 500, as in `get_resume`), otherwise
`del resumes_db[id]` and a 204 response. -/
def delete_resume (db : ResumeStore) (id : String) : Except HTTPError Nat × ResumeStore :=
  if !storeHas db id then
    (.error ⟨500, httpErrorStr ⟨404, "Resume not found"⟩⟩, db)
  else
    (.ok 204, storeDel db id)


/-! ## Dictionary lemmas -/

theorem dget_dset_self (fs : JObj) (k : String) (v : JVal) :
    dget (dset fs k v) k = some v := by
  induction fs with
  | nil => simp [dget, dset]
  | cons kv fs ih =>
    by_cases h : kv.1 = k
    · simp [dget, dset, h]
    · simp [dget, dset, h, ih]

theorem dget_dset_ne (fs : JObj) (k k' : String) (v : JVal) (h : k ≠ k') :
    dget (dset fs k v) k' = dget fs k' := by
  induction fs with
  | nil => simp [dget, dset, h]
  | cons kv fs ih =>
    by_cases hk : kv.1 = k
    · simp [dget, dset, hk, h]
    · simp only [dset, hk, if_false]
      by_cases hk' : kv.1 = k'
      · simp [dget, hk']
      · simp [dget, hk', ih]

theorem dset_dset (fs : JObj) (k : String) (v w : JVal) :
    dset (dset fs k v) k w = dset fs k w := by
  induction fs with
  | nil => simp [dset]
  | cons kv fs ih =>
    by_cases h : kv.1 = k
    · simp [dset, h]
    · simp [dset, h, ih]

theorem dset_overwrite_across (fs : JObj) (a b : String) (v1 w v2 : JVal) (h : a ≠ b) :
    dset (dset (dset fs a v1) b w) a v2 = dset (dset fs a v2) b w := by
  induction fs with
  | nil => simp [dset, h, Ne.symm h]
  | cons kv fs ih =>
    by_cases hk : kv.1 = a
    · have hkb : kv.1 ≠ b := by rw [hk]; exact h
      simp [dset, hk, hkb, Ne.symm h, h]
    · by_cases hk' : kv.1 = b
      · have hka : b ≠ a := Ne.symm h
        simp [dset, hk, hk', Ne.symm h, dset_dset]
      · simp [dset, hk, hk', ih]

theorem dset_eq_self (fs : JObj) (k : String) (v : JVal) (h : dget fs k = some v) :
    dset fs k v = fs := by
  induction fs with
  | nil => simp [dget] at h
  | cons kv fs ih =>
    obtain ⟨k1, v1⟩ := kv
    by_cases hk : k1 = k
    · simp [dget, hk] at h
      simp [dset, hk, h]
    · simp [dget, hk] at h
      simp [dset, hk, ih h]

/-! ## Claim C10 — sanitize_filename -/

/-- C10: for every input string, `sanitize_filename` returns a string of
the same length in which every character outside `[A-Za-z0-9_.-]` is
replaced by `'_'` and every character inside that class is unchanged;
consequently the operation is idempotent. -/
theorem C10_sanitize_filename_charwise_idempotent (s : String) :
    (sanitize_filename s).length = s.length ∧
    (sanitize_filename s).toList =
      s.toList.map (fun c => if allowedFilenameChar c then c else '_') ∧
    (sanitize_filename s).toList.all allowedFilenameChar = true ∧
    sanitize_filename (sanitize_filename s) = sanitize_filename s := by
  have hmap : ∀ c : Char,
      allowedFilenameChar (if allowedFilenameChar c then c else '_') = true := by
    intro c
    by_cases h : allowedFilenameChar c
    · rw [if_pos h]; exact h
    · rw [if_neg h]; decide
  refine ⟨?_, rfl, ?_, ?_⟩
  · show (s.toList.map _).length = s.length
    rw [List.length_map]
    rfl
  · simp only [sanitize_filename, String.toList, List.all_eq_true]
    intro c hc
    obtain ⟨c0, _, rfl⟩ := List.mem_map.mp hc
    exact hmap c0
  · show String.mk _ = String.mk _
    simp only [sanitize_filename, String.toList, List.map_map]
    congr 1
    apply List.map_congr_left
    intro c _
    show (if allowedFilenameChar (if allowedFilenameChar c then c else '_') then _ else _) = _
    rw [if_pos (hmap c)]

/-! ## Claim C1 — PDF extraction threshold and OCR avoidance -/

/-- C1 counterexample: a pdfplumber result whose trimmed length is
exactly 100 characters (so "at least 100") does not stop the chain: the
code's test is strict (`> 100`), PyPDF2 is tried next and, when it also
stays under the threshold, OCR is invoked and its text is returned. -/
theorem C1_counterexample_exactly_100_invokes_ocr :
    (pyStrip (String.mk (List.replicate 100 'a'))).length = 100 ∧
    extract_text_from_pdf (String.mk (List.replicate 100 'a')) ""
        (String.mk (List.replicate 120 'b')) true true =
      (.ok (String.mk (List.replicate 120 'b')), [.plumber, .pypdf2, .ocr]) := by
  constructor
  · rfl
  · rfl

/-- C1 amended: extraction always tries pdfplumber first, and whenever a
non-OCR method yields text whose trimmed length is strictly greater than
100 characters, that text is returned immediately, no further method is
tried and OCR is never invoked. -/
theorem C1_amended_strict_threshold_ocr_avoidance
    (p q o : String) (use_ocr ocrAvailable : Bool) :
    (100 < (pyStrip p).length →
      extract_text_from_pdf p q o use_ocr ocrAvailable = (.ok p, [.plumber])) ∧
    ((pyStrip p).length ≤ 100 → 100 < (pyStrip q).length →
      extract_text_from_pdf p q o use_ocr ocrAvailable = (.ok q, [.plumber, .pypdf2])) ∧
    (extract_text_from_pdf p q o use_ocr ocrAvailable).2.head? = some .plumber := by
  have hne : ∀ s : String, 100 < (pyStrip s).length → s ≠ "" := by
    intro s h he
    subst he
    simp [pyStrip] at h
  refine ⟨?_, ?_, ?_⟩
  · intro h
    unfold extract_text_from_pdf
    rw [if_pos ⟨hne p h, h⟩]
  · intro hp hq
    unfold extract_text_from_pdf
    rw [if_neg (fun hc => absurd hc.2 (by omega)), if_pos ⟨hne q hq, hq⟩]
  · unfold extract_text_from_pdf
    dsimp only
    repeat' split
    all_goals rfl

/-- C1 witness: the amended theorem applied at concrete inputs — a
101-character pdfplumber text is returned at once with only pdfplumber
invoked, and with an empty pdfplumber text a 101-character PyPDF2 text
is returned with OCR never invoked. -/
theorem C1_amended_witness :
    extract_text_from_pdf (String.mk (List.replicate 101 'a')) "" "x" true true =
      (.ok (String.mk (List.replicate 101 'a')), [.plumber]) ∧
    extract_text_from_pdf "" (String.mk (List.replicate 101 'b')) "x" true true =
      (.ok (String.mk (List.replicate 101 'b')), [.plumber, .pypdf2]) :=
  ⟨(C1_amended_strict_threshold_ocr_avoidance (String.mk (List.replicate 101 'a')) "" "x"
      true true).1 (by decide),
   (C1_amended_strict_threshold_ocr_avoidance "" (String.mk (List.replicate 101 'b')) "x"
      true true).2.1 (by decide) (by decide)⟩

/-! ## Claim C6 — txt extraction -/

/-- Helper: on pure-ASCII byte sequences the `errors='ignore'` decoder is
the identity embedding, given enough fuel. -/
theorem decodeUtf8IgnoreAux_ascii (bs : List Nat) :
    ∀ fuel, bs.length < fuel → bs.all (· ≤ 0x7F) = true →
      decodeUtf8IgnoreAux fuel bs = bs.map Char.ofNat := by
  induction bs with
  | nil =>
    intro fuel hf _
    cases fuel with
    | zero => omega
    | succ n => rfl
  | cons b bs ih =>
    intro fuel hf hall
    cases fuel with
    | zero => omega
    | succ n =>
      simp only [List.all_cons, Bool.and_eq_true, decide_eq_true_eq] at hall
      simp only [decodeUtf8IgnoreAux, if_pos hall.1, List.map_cons]
      have : bs.length < n := by simpa using hf
      rw [ih n this (by simpa using hall.2)]

/-- C6 counterexample: the code decodes `txt` bytes with
`errors='ignore'`, so the single undecodable byte `0xFF` is dropped and
the result is `""`, not the one-character string `U+FFFD` that the
claim's replacement-character behaviour would produce. -/
theorem C6_counterexample_invalid_byte_dropped_not_replaced :
    extractTextTxt [0xFF] = "" ∧
    extractTextTxt [0xFF] ≠ String.mk [Char.ofNat 0xFFFD] := by
  exact ⟨rfl, by decide⟩

/-- C6 amended: for every byte sequence with declared extension `txt`,
extraction decodes the bytes as UTF-8 *dropping* undecodable bytes
(`errors='ignore'`) and never fails — in particular it is the identity
on ASCII bytes, and ill-formed bytes simply disappear from the
output. -/
theorem C6_amended_txt_decode_ignores_invalid_bytes :
    (∀ bs : List Nat, bs.all (· ≤ 0x7F) = true →
      extractTextTxt bs = String.mk (bs.map Char.ofNat)) ∧
    extractTextTxt [104, 255, 105] = "hi" ∧
    extractTextTxt [104, 0xC3, 0xA9, 105] = "héi" := by
  refine ⟨?_, rfl, rfl⟩
  intro bs hall
  unfold extractTextTxt pyDecodeUtf8Ignore
  rw [decodeUtf8IgnoreAux_ascii bs (bs.length + 1) (by omega) hall]

/-- C6 witness: the amended theorem evaluated on the ASCII bytes of
`"Hi"`. -/
theorem C6_amended_witness :
    ([72, 105] : List Nat).all (· ≤ 0x7F) = true ∧
    extractTextTxt [72, 105] = String.mk (([72, 105] : List Nat).map Char.ofNat) :=
  ⟨by decide, C6_amended_txt_decode_ignores_invalid_bytes.1 [72, 105] (by decide)⟩

/-! ## Claim C2 — model failure during structuring -/

/-- C2: the claim says a failing language-model call must still yield the
regex-only result.  In the code, `parse_resume` calls
`generate_summary` with no `try/except`, so a failing model call
propagates out and the request fails — even though the regex extractors,
run on the same text, do produce an email, a name and a skill.  This
theorem evaluates the embedded code at such a failing input. -/
theorem C2_model_failure_fails_request_despite_regex_result :
    parse_resume (fun _ => .error "model timeout")
        "Name: Ada Lovelace\nada@example.com Python" = .error "model timeout" ∧
    searchEmail "Name: Ada Lovelace\nada@example.com Python" = some "ada@example.com" ∧
    (searchName "Name: Ada Lovelace\nada@example.com Python").map
        (fun g => String.mk (pyStripChars g)) = some "Ada Lovelace\nada" ∧
    findSkills "Name: Ada Lovelace\nada@example.com Python" = ["Python"] :=
  ⟨rfl, rfl, rfl, rfl⟩

/-! ## Claim C3 — NotFound behaviour of fetch and delete -/

/-- C3: the claim says fetching or deleting a missing identifier reports
`NotFound` (HTTP 404).  The route bodies do raise `HTTPException(404)`,
but the surrounding `except Exception as e: raise HTTPException(500,
str(e))` catches that very exception (`HTTPException` subclasses
`Exception`) and re-raises it as a 500 whose detail merely quotes the
404.  The same happens on a fetch after a successful delete.  This
theorem evaluates the embedded routes at those inputs. -/
theorem C3_notfound_is_wrapped_into_500 :
    get_resume [] "missing" = .error ⟨500, "404: Resume not found"⟩ ∧
    (delete_resume [] "missing").1 = .error ⟨500, "404: Resume not found"⟩ ∧
    delete_resume [("r1", JVal.dict [("data", .dict [("name", .str "Ada")])])] "r1" =
      (.ok 204, []) ∧
    get_resume
      (delete_resume [("r1", JVal.dict [("data", .dict [("name", .str "Ada")])])] "r1").2
      "r1" = .error ⟨500, "404: Resume not found"⟩ :=
  ⟨rfl, rfl, rfl, rfl⟩

/-! ## Claim C4 — total-experience computation -/

/-- Helper: an entry whose start date is a truthy string whose leading
split component does not parse as an integer is skipped — it contributes
zero months and raises nothing. -/
theorem entryMonths_skip (nowYear nowMonth : Int) (fs : JObj) (s : String)
    (h1 : dget fs "startDate" = some (.str s)) (h2 : s ≠ "")
    (h3 : pyInt? ((pySplitDash s).head?.getD "") = none) :
    entryMonths nowYear nowMonth (.dict fs) = .ok 0 := by
  simp only [entryMonths, h1]
  simp [truthy, h2, h3]

/-- Helper: `round(0 / 12, 1) = 0.0`. -/
theorem pyRound1_zero : pyRound1 0 12 = 0 := by
  norm_num [pyRound1, roundHalfEvenTenths]

/-- C4: total-experience computation sums `max(0, months(end) -
months(start))` over the entries, defaulting a missing end date to the
current date, skips entries with unparseable dates without raising, and
returns years rounded to one decimal place.  Formally: (i) inserting an
entry with an unparseable start date anywhere leaves the result
unchanged (the entry is skipped, no exception escapes); (ii) the
spec's first example at a fixed now of 2024-01 yields 6.0 years (72
months); (iii) the single unparseable entry yields 0.0. -/
theorem C4_total_experience_sum_skip_round :
    (∀ (nowYear nowMonth : Int) (pre post : List JVal) (fs : JObj) (s : String),
      dget fs "startDate" = some (.str s) → s ≠ "" →
      pyInt? ((pySplitDash s).head?.getD "") = none →
      calculateTotalExperience nowYear nowMonth (.list (pre ++ .dict fs :: post)) =
        calculateTotalExperience nowYear nowMonth (.list (pre ++ post))) ∧
    calculateTotalExperience 2024 1 (.list [
      .dict [("startDate", .str "2018-01"), ("endDate", .str "2020-01")],
      .dict [("startDate", .str "2020-01"), ("endDate", .null)]]) = .ok 6 ∧
    calculateTotalExperience 2024 1 (.list [.dict [("startDate", .str "not-a-date")]]) =
      .ok 0 := by
  refine ⟨?_, ?_, ?_⟩
  · intro nowYear nowMonth pre post fs s h1 h2 h3
    have hskip := entryMonths_skip nowYear nowMonth fs s h1 h2 h3
    unfold calculateTotalExperience
    have hne : truthy (.list (pre ++ .dict fs :: post)) = true := by
      cases pre <;> simp [truthy]
    rw [hne]
    simp only [Bool.not_true, Bool.false_eq_true, if_false]
    by_cases hpp : pre ++ post = []
    · obtain ⟨hpre, hpost⟩ := List.append_eq_nil.mp hpp
      subst hpre; subst hpost
      simp only [truthy, List.nil_append, List.foldlM_cons, List.foldlM_nil, hskip]
      show Except.ok (pyRound1 0 12) = Except.ok 0
      rw [pyRound1_zero]
    · have hne2 : truthy (.list (pre ++ post)) = true := by
        simp [truthy, hpp]
      rw [hne2]
      simp only [Bool.not_true, Bool.false_eq_true, if_false]
      have hfold : ∀ acc : Int,
          ((pre ++ .dict fs :: post).foldlM (fun acc e => do
            let m ← entryMonths nowYear nowMonth e
            pure (acc + m)) acc) =
          ((pre ++ post).foldlM (fun acc e => do
            let m ← entryMonths nowYear nowMonth e
            pure (acc + m)) acc) := by
        intro acc
        simp only [List.foldlM_append, List.foldlM_cons]
        apply congrArg
        funext b
        rw [hskip]
        show List.foldlM _ (b + 0) post = List.foldlM _ b post
        rw [add_zero]
      rw [hfold]
  · rw [show calculateTotalExperience 2024 1 (.list [
        .dict [("startDate", .str "2018-01"), ("endDate", .str "2020-01")],
        .dict [("startDate", .str "2020-01"), ("endDate", .null)]]) =
        .ok (pyRound1 72 12) from rfl]
    norm_num [pyRound1, roundHalfEvenTenths]
  · rw [show calculateTotalExperience 2024 1
        (.list [.dict [("startDate", .str "not-a-date")]]) = .ok (pyRound1 0 12) from rfl]
    rw [pyRound1_zero]

/-- C4 witness: the skip property applied at a concrete list — a
well-formed 12-month entry followed by an unparseable entry gives the
same result as the well-formed entry alone — together with the
discharged side conditions. -/
theorem C4_total_experience_witness :
    calculateTotalExperience 2024 1 (.list
      ([.dict [("startDate", .str "2019-01"), ("endDate", .str "2020-01")]] ++
        .dict [("startDate", .str "not-a-date")] ::
        ([] : List JVal))) =
      calculateTotalExperience 2024 1 (.list
        ([.dict [("startDate", .str "2019-01"), ("endDate", .str "2020-01")]] ++
          ([] : List JVal))) :=
  C4_total_experience_sum_skip_round.1 2024 1
    [.dict [("startDate", .str "2019-01"), ("endDate", .str "2020-01")]] []
    [("startDate", .str "not-a-date")] "not-a-date" rfl (by decide) rfl

/-! ## Claim C8 — bare-year date strings -/

/-- C8: in total-experience computation, a date string with no `'-'`
separator is still parsed: a start date with no month component defaults
its month to 1, an end date with no month component defaults its month
to 12, and the entry with start `"2018"` and end `"2018"` contributes 11
months. -/
theorem C8_bare_year_defaults :
    (∀ (nowYear nowMonth : Int) (sy ey : String) (a b : Int),
      pySplitDash sy = [sy] → pySplitDash ey = [ey] →
      pyInt? sy = some a → pyInt? ey = some b → sy ≠ "" → ey ≠ "" →
      entryMonths nowYear nowMonth
          (.dict [("startDate", .str sy), ("endDate", .str ey)]) =
        .ok (max 0 ((b - a) * 12 + 11))) ∧
    entryMonths 2024 1 (.dict [("startDate", .str "2018"), ("endDate", .str "2018")]) =
      .ok 11 := by
  constructor
  · intro nowYear nowMonth sy ey a b hs he hsa heb hsne hene
    unfold entryMonths
    simp only [dget, if_pos, if_neg, reduceIte]
    simp [truthy, hsne, hene, hs, he, hsa, heb]
  · rfl

/-- C8 witness: the general bare-year fact applied at start `"2018"`,
end `"2018"`. -/
theorem C8_bare_year_witness :
    entryMonths 2024 1 (.dict [("startDate", .str "2018"), ("endDate", .str "2018")]) =
      .ok (max 0 ((2018 - 2018) * 12 + 11)) :=
  C8_bare_year_defaults.1 2024 1 "2018" "2018" 2018 2018 rfl rfl rfl rfl
    (by decide) (by decide)

/-! ## Claim C9 — update merge semantics -/

/-- Helper: assigning an already-present key does not change the key
list of a dict. -/
theorem keys_dset_of_hasKey (fs : JObj) (k : String) (v : JVal)
    (h : hasKey fs k = true) : (dset fs k v).map Prod.fst = fs.map Prod.fst := by
  induction fs with
  | nil => simp [hasKey, dget] at h
  | cons kv fs ih =>
    by_cases hk : kv.1 = k
    · simp [dset, hk]
    · have h' : hasKey fs k = true := by
        simpa [hasKey, dget, hk] using h
      simp [dset, hk, ih h']

/-- Helper: a key is absent exactly when lookup yields `none`. -/
theorem dget_none_of_not_hasKey (fs : JObj) (k : String) (h : hasKey fs k = false) :
    dget fs k = none := by
  unfold hasKey at h
  cases hg : dget fs k with
  | none => rfl
  | some v => rw [hg] at h; simp at h

/-- Helper: one merge step never changes the key list. -/
theorem keys_mergeStep (d : JObj) (kv : String × JVal) :
    (mergeStep d kv).map Prod.fst = d.map Prod.fst := by
  unfold mergeStep
  by_cases h : hasKey d kv.1
  · rw [if_pos h]
    split
    · exact keys_dset_of_hasKey _ _ _ h
    · exact keys_dset_of_hasKey _ _ _ h
  · rw [if_neg h]

/-- Helper: one merge step leaves every other key's value unchanged. -/
theorem dget_mergeStep_ne (d : JObj) (kv : String × JVal) (k : String)
    (hne : kv.1 ≠ k) : dget (mergeStep d kv) k = dget d k := by
  unfold mergeStep
  by_cases h : hasKey d kv.1
  · rw [if_pos h]
    split
    · exact dget_dset_ne _ _ _ _ hne
    · exact dget_dset_ne _ _ _ _ hne
  · rw [if_neg h]

/-- Helper: one merge step preserves presence of every key. -/
theorem hasKey_mergeStep (d : JObj) (kv : String × JVal) (k : String) :
    hasKey (mergeStep d kv) k = hasKey d k := by
  by_cases hne : kv.1 = k
  · subst hne
    have h' := dget_dset_self
    unfold mergeStep
    by_cases h : hasKey d kv.1
    · rw [if_pos h]
      have hh : (dget d kv.1).isSome = true := h
      split <;> simp [hasKey, dget_dset_self, hh]
    · rw [if_neg h]
  · unfold hasKey
    rw [dget_mergeStep_ne d kv k hne]

/-- Helper: the value one merge step stores under the payload key. -/
theorem dget_mergeStep_self (d : JObj) (k1 : String) (v1 : JVal)
    (h : hasKey d k1 = true) :
    dget (mergeStep d (k1, v1)) k1 = some (mergedValue (dget d k1) v1) := by
  unfold mergeStep
  rw [if_pos h]
  cases hdd : dget d k1 with
  | none => cases v1 <;> simp [mergedValue, hdd, dget_dset_self]
  | some w => cases w <;> cases v1 <;> simp [mergedValue, hdd, dget_dset_self]

/-- Helper: the merge loop preserves the key list of the stored data. -/
theorem mergeUpdate_keys (u : JObj) : ∀ d : JObj,
    (mergeUpdate d u).map Prod.fst = d.map Prod.fst := by
  induction u with
  | nil => intro d; rfl
  | cons kv u ih =>
    intro d
    show (mergeUpdate (mergeStep d kv) u).map Prod.fst = _
    rw [ih, keys_mergeStep]

/-- Helper: keys that never occur in the payload are untouched. -/
theorem mergeUpdate_not_mem (u : JObj) : ∀ (d : JObj) (k : String),
    k ∉ u.map Prod.fst → dget (mergeUpdate d u) k = dget d k := by
  induction u with
  | nil => intro d k _; rfl
  | cons kv u ih =>
    intro d k hk
    simp only [List.map_cons, List.mem_cons] at hk
    push_neg at hk
    show dget (mergeUpdate (mergeStep d kv) u) k = _
    rw [ih _ k hk.2, dget_mergeStep_ne d kv k (fun he => hk.1 he.symm)]

/-- Helper: the per-key value produced by the merge loop, for a payload
with no duplicate keys. -/
theorem mergeUpdate_get (u : JObj) : ∀ (d : JObj) (k : String) (v : JVal),
    (u.map Prod.fst).Nodup → dget u k = some v → hasKey d k = true →
    dget (mergeUpdate d u) k = some (mergedValue (dget d k) v) := by
  induction u with
  | nil => intro d k v _ hu _; simp [dget] at hu
  | cons kv u ih =>
    intro d k v hnd hu hk
    obtain ⟨k1, v1⟩ := kv
    simp only [List.map_cons, List.nodup_cons] at hnd
    show dget (mergeUpdate (mergeStep d (k1, v1)) u) k = _
    by_cases hke : k1 = k
    · subst hke
      simp only [dget, if_pos] at hu
      cases hu
      rw [mergeUpdate_not_mem u _ k1 hnd.1]
      exact dget_mergeStep_self d k1 v hk
    · have hu' : dget u k = some v := by
        simpa [dget, hke] using hu
      have hk' : hasKey (mergeStep d (k1, v1)) k = true := by
        rw [hasKey_mergeStep]; exact hk
      rw [ih _ k v hnd.2 hu' hk', dget_mergeStep_ne d (k1, v1) k hke]

/-- C9: the update operation's merge loop changes only keys already
present in the stored data — the key list is preserved exactly (so no
top-level key is ever added), a payload key absent from the stored
profile is silently ignored (lookups still yield `none`), and a present
key is shallow-merged when both values are dicts and replaced
otherwise. -/
theorem C9_update_merges_only_existing_keys (d u : JObj) :
    (mergeUpdate d u).map Prod.fst = d.map Prod.fst ∧
    (∀ k, hasKey d k = false → dget (mergeUpdate d u) k = none) ∧
    ((u.map Prod.fst).Nodup → ∀ k v, dget u k = some v → hasKey d k = true →
      dget (mergeUpdate d u) k = some (mergedValue (dget d k) v)) := by
  have hhk : ∀ (u : JObj) (d : JObj) (k : String),
      hasKey (mergeUpdate d u) k = hasKey d k := by
    intro u
    induction u with
    | nil => intro d k; rfl
    | cons kv u ih =>
      intro d k
      show hasKey (mergeUpdate (mergeStep d kv) u) k = _
      rw [ih, hasKey_mergeStep]
  refine ⟨mergeUpdate_keys u d, ?_, ?_⟩
  · intro k hk
    apply dget_none_of_not_hasKey
    rw [hhk, hk]
  · intro hnd k v hu hk
    exact mergeUpdate_get u d k v hnd hu hk

theorem C9_update_merge_witness :
    (mergeUpdate [("a", .int 1), ("b", .dict [("x", .int 1)])]
        [("b", .dict [("y", .int 2)]), ("c", .int 3)]).map Prod.fst =
      ([("a", JVal.int 1), ("b", .dict [("x", .int 1)])] : JObj).map Prod.fst ∧
    dget (mergeUpdate [("a", .int 1), ("b", .dict [("x", .int 1)])]
        [("b", .dict [("y", .int 2)]), ("c", .int 3)]) "c" = none ∧
    dget (mergeUpdate [("a", .int 1), ("b", .dict [("x", .int 1)])]
        [("b", .dict [("y", .int 2)]), ("c", .int 3)]) "b" =
      some (mergedValue
        (dget [("a", .int 1), ("b", .dict [("x", .int 1)])] "b")
        (.dict [("y", .int 2)])) :=
  ⟨(C9_update_merges_only_existing_keys _ _).1,
   (C9_update_merges_only_existing_keys _ _).2.1 "c" rfl,
   (C9_update_merges_only_existing_keys _ _).2.2 (by simp) "b" _ rfl rfl⟩

/-! ## Shape lemmas for `post_process` -/

/-- Helper: a successful contact-field read either goes through an
existing `personalInfo.contact` dict chain or returns the `None`
default. -/
theorem readContact_shape (d : JObj) (f : String) (v : JVal)
    (h : readContactField d f = .ok v) :
    (∃ pi ct, dget d "personalInfo" = some (.dict pi) ∧
      dget pi "contact" = some (.dict ct) ∧ v = (dget ct f).getD .null) ∨
    v = .null := by
  unfold readContactField at h
  cases hpi : dget d "personalInfo" with
  | none =>
    rw [hpi] at h
    simp only [Option.getD_none, pyGet, dget] at h
    right
    cases h
    rfl
  | some pv =>
    rw [hpi] at h
    cases pv with
    | dict pi =>
      simp only [Option.getD_some, pyGet] at h
      cases hct : dget pi "contact" with
      | none =>
        rw [hct] at h
        simp only [Option.getD_none, pyGet, dget] at h
        right
        cases h
        rfl
      | some cv =>
        rw [hct] at h
        cases cv with
        | dict ct =>
          simp only [Option.getD_some, pyGet] at h
          left
          refine ⟨pi, ct, rfl, hct, ?_⟩
          cases h
          rfl
        | null => simp [pyGet] at h
        | bool b => simp [pyGet] at h
        | int n => simp [pyGet] at h
        | float q => simp [pyGet] at h
        | str s => simp [pyGet] at h
        | list xs => simp [pyGet] at h
    | null => simp [pyGet] at h
    | bool b => simp [pyGet] at h
    | int n => simp [pyGet] at h
    | float q => simp [pyGet] at h
    | str s => simp [pyGet] at h
    | list xs => simp [pyGet] at h

/-- Helper: the two outcomes of a successful email/phone validation
block: either the field was falsy and the profile is unchanged, or the
chain `personalInfo.contact.field` holds a non-empty string and exactly
the boolean flag is written next to it. -/
theorem vf_cases (d d' : JObj) (f fl : String) (val : String → Bool)
    (h : validateContactField d f fl val = .ok d') :
    (∃ v, readContactField d f = .ok v ∧ truthy v = false ∧ d' = d) ∨
    ∃ pi ct s, dget d "personalInfo" = some (.dict pi) ∧
      dget pi "contact" = some (.dict ct) ∧
      dget ct f = some (.str s) ∧ s ≠ "" ∧
      d' = dset d "personalInfo"
        (.dict (dset pi "contact" (.dict (dset ct fl (.bool (val s)))))) := by
  unfold validateContactField at h
  cases hrc : readContactField d f with
  | error e => rw [hrc] at h; exact absurd h (by simp)
  | ok v =>
    rw [hrc] at h
    dsimp only at h
    by_cases htr : truthy v = true
    · rw [if_pos htr] at h
      cases v with
      | str s =>
        have hs : s ≠ "" := by simpa [truthy] using htr
        right
        rcases readContact_shape d f _ hrc with ⟨pi, ct, hpi, hct, hv⟩ | hnull
        · have hcf : dget ct f = some (.str s) := by
            cases hcf' : dget ct f with
            | none => rw [hcf'] at hv; exact absurd hv (by simp)
            | some fv =>
              rw [hcf'] at hv
              simp only [Option.getD_some] at hv
              rw [← hv]
          refine ⟨pi, ct, s, hpi, hct, hcf, hs, ?_⟩
          cases h
          simp only [setContactFlag, hpi, hct]
        · exact absurd hnull (by simp)
      | null => exact absurd htr (by simp [truthy])
      | bool b => exact absurd h (by simp)
      | int n => exact absurd h (by simp)
      | float q => exact absurd h (by simp)
      | list xs => exact absurd h (by simp)
      | dict fs => exact absurd h (by simp)
    · rw [if_neg htr] at h
      left
      cases h
      exact ⟨v, rfl, by simpa using htr, rfl⟩

/-- Helper: a validation block never touches keys other than
`personalInfo`. -/
theorem vf_frame (d d' : JObj) (f fl : String) (val : String → Bool)
    (h : validateContactField d f fl val = .ok d') (k : String)
    (hk : "personalInfo" ≠ k) : dget d' k = dget d k := by
  rcases vf_cases d d' f fl val h with ⟨v, _, _, he⟩ | ⟨pi, ct, s, _, _, _, _, he⟩
  · rw [he]
  · rw [he, dget_dset_ne _ _ _ _ hk]

/-- Helper: shape of a successful summary step. -/
theorem ppSummaryStep_shape (nowYear nowMonth : Int) (d d' : JObj)
    (h : ppSummaryStep nowYear nowMonth d = .ok d') :
    ∃ t, calculateTotalExperience nowYear nowMonth ((dget d "experience").getD (.list [])) =
        .ok t ∧
      d' = dset d "summary"
        (.dict (dset (summaryCoerce (dget d "summary")) "totalYearsOfExperience" (.float t))) := by
  unfold ppSummaryStep at h
  cases hc : calculateTotalExperience nowYear nowMonth ((dget d "experience").getD (.list [])) with
  | error e => rw [hc] at h; exact absurd h (by simp)
  | ok t =>
    rw [hc] at h
    cases h
    exact ⟨t, rfl, rfl⟩

/-- Helper: shape of a successful confidence step. -/
theorem ppConfidenceStep_shape (d d' : JObj) (h : ppConfidenceStep d = .ok d') :
    ∃ contact, pyGet ((dget d "personalInfo").getD (.dict [])) "contact" .null = .ok contact ∧
      d' = dset d "confidenceScores" (.dict (confidenceScoresOf d contact)) := by
  unfold ppConfidenceStep at h
  cases hc : pyGet ((dget d "personalInfo").getD (.dict [])) "contact" .null with
  | error e => rw [hc] at h; exact absurd h (by simp)
  | ok contact =>
    rw [hc] at h
    cases h
    exact ⟨contact, rfl, rfl⟩

/-- Helper: shape of a successful flattening step. -/
theorem ppFlatStep_shape (d d' : JObj) (h : ppFlatStep d = .ok d') :
    ∃ nm ct, pyGet ((dget d "personalInfo").getD (.dict [])) "name" (.str "Not found") = .ok nm ∧
      pyGet ((dget d "personalInfo").getD (.dict [])) "contact" (.dict []) = .ok (.dict ct) ∧
      d' = dset (dset (dset d "name" nm) "contact_info" (flatContactInfoOf ct))
        "summary" (flatSummaryOf d) := by
  unfold ppFlatStep at h
  cases hn : pyGet ((dget d "personalInfo").getD (.dict [])) "name" (.str "Not found") with
  | error e => rw [hn] at h; exact absurd h (by simp)
  | ok nm =>
    rw [hn] at h
    cases hc : pyGet ((dget d "personalInfo").getD (.dict [])) "contact" (.dict []) with
    | error e => rw [hc] at h; exact absurd h (by simp)
    | ok cv =>
      rw [hc] at h
      cases cv with
      | dict ct =>
        refine ⟨nm, ct, rfl, rfl, ?_⟩
        cases h
        rfl
      | null => exact absurd h (by simp)
      | bool b => exact absurd h (by simp)
      | int n => exact absurd h (by simp)
      | float q => exact absurd h (by simp)
      | str s => exact absurd h (by simp)
      | list xs => exact absurd h (by simp)

/-- Helper: decomposition of a successful `post_process` run into its
five steps. -/
theorem post_process_steps (nowYear nowMonth : Int) (d d' : JObj)
    (h : post_process nowYear nowMonth d = .ok d') :
    ∃ d1 d2 d3 d4,
      validateContactField d "email" "emailValid" validate_email = .ok d1 ∧
      validateContactField d1 "phone" "phoneValid" validate_phone = .ok d2 ∧
      ppSummaryStep nowYear nowMonth d2 = .ok d3 ∧
      ppConfidenceStep d3 = .ok d4 ∧
      ppFlatStep d4 = .ok d' := by
  unfold post_process at h
  cases h1 : validateContactField d "email" "emailValid" validate_email with
  | error e => rw [h1] at h; exact absurd h (by simp)
  | ok d1 =>
    rw [h1] at h
    dsimp only at h
    cases h2 : validateContactField d1 "phone" "phoneValid" validate_phone with
    | error e => rw [h2] at h; exact absurd h (by simp)
    | ok d2 =>
      rw [h2] at h
      dsimp only at h
      cases h3 : ppSummaryStep nowYear nowMonth d2 with
      | error e => rw [h3] at h; exact absurd h (by simp)
      | ok d3 =>
        rw [h3] at h
        dsimp only at h
        cases h4 : ppConfidenceStep d3 with
        | error e => rw [h4] at h; exact absurd h (by simp)
        | ok d4 =>
          rw [h4] at h
          dsimp only at h
          exact ⟨d1, d2, d3, d4, rfl, h2, h3, h4, h⟩

/-! ## Claim C5 — post-processor frame behaviour -/

/-- C5 counterexample: for the profile `{"summary": {"text": "hi"}}`,
`data.update(flat_output)` overwrites the structurer-written `summary`
dict with the flattened text string, so a field written by the
structurer is replaced (and the nested summary object — which the step
itself had just extended with `totalYearsOfExperience` — is not left
intact). -/
theorem C5_counterexample_summary_replaced :
    post_process 2024 1 [("summary", .dict [("text", .str "hi")])] = .ok [
      ("summary", .str "hi"),
      ("confidenceScores", .dict [
        ("overall", .float 0.85), ("contactInfo", .float 0.5), ("experience", .float 0.3),
        ("education", .float 0.4), ("skills", .float 0.2)]),
      ("name", .str "Not found"),
      ("contact_info", .dict [("email", .str "Not found"), ("phone", .str "Not found"),
        ("linkedin", .str "Not found"), ("location", .str "Not found"),
        ("portfolio", .str "Not found")])] ∧
    dget [("summary", JVal.dict [("text", .str "hi")])] "summary" =
      some (.dict [("text", .str "hi")]) ∧
    JVal.str "hi" ≠ JVal.dict [("text", .str "hi")] := by
  refine ⟨by rfl, by rfl, ?_⟩
  intro hcontr
  exact JVal.noConfusion hcontr

/-- C5 amended: the post-processor adds derived fields (`name`,
`contact_info`, validity flags, confidence scores) and leaves
`experience`, `education` and `skills` untouched, but the top-level
`summary` field is not merged: it ends up replaced by the flattened
summary text (the `text` entry of the coerced summary dict, `""` when
absent). -/
theorem C5_amended_post_process_frame (nowYear nowMonth : Int) (d d' : JObj)
    (h : post_process nowYear nowMonth d = .ok d') :
    dget d' "experience" = dget d "experience" ∧
    dget d' "education" = dget d "education" ∧
    dget d' "skills" = dget d "skills" ∧
    (dget d' "name").isSome = true ∧
    (dget d' "contact_info").isSome = true ∧
    dget d' "summary" = some (flatTextOf d) := by
  obtain ⟨d1, d2, d3, d4, h1, h2, h3, h4, h5⟩ := post_process_steps nowYear nowMonth d d' h
  obtain ⟨t, hcalc, hd3⟩ := ppSummaryStep_shape nowYear nowMonth d2 d3 h3
  obtain ⟨ct4, hct4, hd4⟩ := ppConfidenceStep_shape d3 d4 h4
  obtain ⟨nm, ctf, hnm, hctf, hd'⟩ := ppFlatStep_shape d4 d' h5
  have f1 : ∀ k, "personalInfo" ≠ k → dget d2 k = dget d k := fun k hk =>
    (vf_frame d1 d2 _ _ _ h2 k hk).trans (vf_frame d d1 _ _ _ h1 k hk)
  have f3 : ∀ k, "summary" ≠ k → dget d3 k = dget d2 k := fun k hk => by
    rw [hd3]; exact dget_dset_ne _ _ _ _ hk
  have f4 : ∀ k, "confidenceScores" ≠ k → dget d4 k = dget d3 k := fun k hk => by
    rw [hd4]; exact dget_dset_ne _ _ _ _ hk
  have f5 : ∀ k, "name" ≠ k → "contact_info" ≠ k → "summary" ≠ k →
      dget d' k = dget d4 k := fun k ha hb hc => by
    rw [hd', dget_dset_ne _ _ _ _ hc, dget_dset_ne _ _ _ _ hb, dget_dset_ne _ _ _ _ ha]
  refine ⟨?_, ?_, ?_, ?_, ?_, ?_⟩
  · rw [f5 _ (by decide) (by decide) (by decide), f4 _ (by decide), f3 _ (by decide),
      f1 _ (by decide)]
  · rw [f5 _ (by decide) (by decide) (by decide), f4 _ (by decide), f3 _ (by decide),
      f1 _ (by decide)]
  · rw [f5 _ (by decide) (by decide) (by decide), f4 _ (by decide), f3 _ (by decide),
      f1 _ (by decide)]
  · rw [hd', dget_dset_ne _ _ _ _ (by decide), dget_dset_ne _ _ _ _ (by decide),
      dget_dset_self]
    rfl
  · rw [hd', dget_dset_ne _ _ _ _ (by decide), dget_dset_self]
    rfl
  · rw [hd', dget_dset_self]
    have hs4 : dget d4 "summary" = some (.dict
        (dset (summaryCoerce (dget d "summary")) "totalYearsOfExperience" (.float t))) := by
      rw [f4 _ (by decide), hd3, dget_dset_self, f1 "summary" (by decide)]
    unfold flatSummaryOf
    rw [hs4]
    dsimp only
    rw [dget_dset_ne _ "totalYearsOfExperience" "text" _ (by decide)]
    rfl

/-- C5 witness: the amended theorem applied to the concrete profile
`{"summary": "hi", "skills": ["Python"]}` and the post-processed result
computed from it. -/
theorem C5_amended_witness :
    dget [("summary", JVal.str "hi"),
      ("skills", JVal.list [.str "Python"]),
      ("confidenceScores", JVal.dict [
        ("overall", .float 0.85), ("contactInfo", .float 0.5), ("experience", .float 0.3),
        ("education", .float 0.4), ("skills", .float 0.75)]),
      ("name", JVal.str "Not found"),
      ("contact_info", JVal.dict [("email", .str "Not found"), ("phone", .str "Not found"),
        ("linkedin", .str "Not found"), ("location", .str "Not found"),
        ("portfolio", .str "Not found")])] "skills" =
      dget [("summary", JVal.str "hi"), ("skills", JVal.list [.str "Python"])] "skills" ∧
    dget [("summary", JVal.str "hi"),
      ("skills", JVal.list [.str "Python"]),
      ("confidenceScores", JVal.dict [
        ("overall", .float 0.85), ("contactInfo", .float 0.5), ("experience", .float 0.3),
        ("education", .float 0.4), ("skills", .float 0.75)]),
      ("name", JVal.str "Not found"),
      ("contact_info", JVal.dict [("email", .str "Not found"), ("phone", .str "Not found"),
        ("linkedin", .str "Not found"), ("location", .str "Not found"),
        ("portfolio", .str "Not found")])] "summary" =
      some (flatTextOf [("summary", JVal.str "hi"), ("skills", JVal.list [.str "Python"])]) :=
  ⟨(C5_amended_post_process_frame 2024 1
      [("summary", .str "hi"), ("skills", .list [.str "Python"])] _ (by rfl)).2.2.1,
   (C5_amended_post_process_frame 2024 1
      [("summary", .str "hi"), ("skills", .list [.str "Python"])] _ (by rfl)).2.2.2.2.2⟩

/-! ## Idempotence lemmas for `post_process` -/

/-- Helper: the contact-field read only depends on the `personalInfo`
entry. -/
theorem readContact_congr (e d : JObj) (f : String)
    (hp : dget e "personalInfo" = dget d "personalInfo") :
    readContactField e f = readContactField d f := by
  unfold readContactField
  rw [hp]

/-- Helper: the contact-field read through an existing dict chain. -/
theorem readContact_of_dicts (e : JObj) (pi ct : JObj) (f : String)
    (hpi : dget e "personalInfo" = some (.dict pi))
    (hct : dget pi "contact" = some (.dict ct)) :
    readContactField e f = .ok ((dget ct f).getD .null) := by
  unfold readContactField
  rw [hpi]
  simp only [Option.getD_some, pyGet, hct]

/-- Helper: a validation block whose field reads falsy returns the
profile unchanged. -/
theorem vf_fixed_skip (e : JObj) (f fl : String) (val : String → Bool) (v : JVal)
    (hrc : readContactField e f = .ok v) (hv : truthy v = false) :
    validateContactField e f fl val = .ok e := by
  unfold validateContactField
  rw [hrc]
  try dsimp only
  rw [if_neg (by simp [hv])]

/-- Helper: a validation block is the identity when the flag it would
write is already stored with the same value. -/
theorem vf_fixed_set (e : JObj) (f fl : String) (val : String → Bool)
    (pi ct : JObj) (s : String)
    (hpi : dget e "personalInfo" = some (.dict pi))
    (hct : dget pi "contact" = some (.dict ct))
    (hcf : dget ct f = some (.str s)) (hs : s ≠ "")
    (hfl : dget ct fl = some (.bool (val s))) :
    validateContactField e f fl val = .ok e := by
  have hrc : readContactField e f = .ok (.str s) := by
    rw [readContact_of_dicts e pi ct f hpi hct, hcf]
    rfl
  unfold validateContactField
  rw [hrc]
  try dsimp only
  rw [if_pos (by simp [truthy, hs])]
  try dsimp only
  congr 1
  simp only [setContactFlag, hpi, hct]
  rw [dset_eq_self ct fl _ hfl, dset_eq_self pi "contact" _ hct,
    dset_eq_self e "personalInfo" _ hpi]

/-- Helper: under the `summaryTextOk` side condition, the `text` entry
of the coerced summary dict is a string (or defaults to `""`). -/
theorem coerced_text_str (d : JObj) (hok : summaryTextOk d = true) :
    ∃ s, (dget (summaryCoerce (dget d "summary")) "text").getD (.str "") = .str s := by
  unfold summaryTextOk at hok
  cases hs : dget d "summary" with
  | none => exact ⟨"", rfl⟩
  | some v =>
    rw [hs] at hok
    cases v with
    | str s => exact ⟨s, by simp [summaryCoerce, dget]⟩
    | dict fs =>
      dsimp only at hok
      cases ht : dget fs "text" with
      | none => exact ⟨"", by simp [summaryCoerce, ht]⟩
      | some tv =>
        rw [ht] at hok
        cases tv with
        | str s => exact ⟨s, by simp [summaryCoerce, ht]⟩
        | null => exact absurd hok (by simp)
        | bool b => exact absurd hok (by simp)
        | int n => exact absurd hok (by simp)
        | float q => exact absurd hok (by simp)
        | list xs => exact absurd hok (by simp)
        | dict fs2 => exact absurd hok (by simp)
    | null => exact ⟨"", rfl⟩
    | bool b => exact ⟨"", rfl⟩
    | int n => exact ⟨"", rfl⟩
    | float q => exact ⟨"", rfl⟩
    | list xs => exact ⟨"", rfl⟩

/-! ## Claim C7 — idempotence of post-processing -/

/-- C7 amended: post-processing is idempotent — in particular on the
confidence-score and flattened-view fields — provided that whenever the
input profile's summary is a dict with a `text` entry, that entry is a
string: a second application returns the first application's output
unchanged. -/
theorem C7_amended_post_process_idempotent (nowYear nowMonth : Int) (d d' : JObj)
    (h : post_process nowYear nowMonth d = .ok d')
    (hok : summaryTextOk d = true) :
    post_process nowYear nowMonth d' = .ok d' := by
  obtain ⟨d1, d2, d3, d4, h1, h2, h3, h4, h5⟩ := post_process_steps nowYear nowMonth d d' h
  obtain ⟨t, hcalc, hd3⟩ := ppSummaryStep_shape nowYear nowMonth d2 d3 h3
  obtain ⟨ct4, hct4, hd4⟩ := ppConfidenceStep_shape d3 d4 h4
  obtain ⟨nm, ctf, hnm, hctf, hd'⟩ := ppFlatStep_shape d4 d' h5
  have f21 : ∀ k, "personalInfo" ≠ k → dget d2 k = dget d k := fun k hk =>
    (vf_frame d1 d2 _ _ _ h2 k hk).trans (vf_frame d d1 _ _ _ h1 k hk)
  have fr32 : ∀ k, "summary" ≠ k → dget d3 k = dget d2 k := fun k hk => by
    rw [hd3]; exact dget_dset_ne _ _ _ _ hk
  have fr43 : ∀ k, "confidenceScores" ≠ k → dget d4 k = dget d3 k := fun k hk => by
    rw [hd4]; exact dget_dset_ne _ _ _ _ hk
  have fr54 : ∀ k, "name" ≠ k → "contact_info" ≠ k → "summary" ≠ k →
      dget d' k = dget d4 k := fun k ha hb hc => by
    rw [hd', dget_dset_ne _ _ _ _ hc, dget_dset_ne _ _ _ _ hb, dget_dset_ne _ _ _ _ ha]
  have F1 : dget d' "personalInfo" = dget d2 "personalInfo" := by
    rw [fr54 _ (by decide) (by decide) (by decide), fr43 _ (by decide), fr32 _ (by decide)]
  have hs4 : dget d4 "summary" = some (.dict
      (dset (summaryCoerce (dget d "summary")) "totalYearsOfExperience" (.float t))) := by
    rw [fr43 _ (by decide), hd3, dget_dset_self, f21 "summary" (by decide)]
  obtain ⟨σs, hσs⟩ := coerced_text_str d hok
  have hσ : flatSummaryOf d4 = .str σs := by
    unfold flatSummaryOf
    rw [hs4]
    dsimp only
    rw [dget_dset_ne _ "totalYearsOfExperience" "text" _ (by decide)]
    exact hσs
  have F3 : dget d' "summary" = some (.str σs) := by
    rw [hd', dget_dset_self, hσ]
  have F4 : dget d' "confidenceScores" = some (.dict (confidenceScoresOf d3 ct4)) := by
    rw [hd', dget_dset_ne _ _ _ _ (by decide), dget_dset_ne _ _ _ _ (by decide),
      dget_dset_ne _ _ _ _ (by decide), hd4, dget_dset_self]
  have F5a : dget d' "name" = some nm := by
    rw [hd', dget_dset_ne _ _ _ _ (by decide), dget_dset_ne _ _ _ _ (by decide),
      dget_dset_self]
  have F5b : dget d' "contact_info" = some (flatContactInfoOf ctf) := by
    rw [hd', dget_dset_ne _ _ _ _ (by decide), dget_dset_self]
  have hEP : validateContactField d' "email" "emailValid" validate_email = .ok d' ∧
      validateContactField d' "phone" "phoneValid" validate_phone = .ok d' := by
    rcases vf_cases d d1 _ _ _ h1 with ⟨vE, hrcE, htrE, hd1⟩ |
      ⟨piE, ctE, sE, hpiE, hctE, hcfE, hsE, hd1⟩
    · rcases vf_cases d1 d2 _ _ _ h2 with ⟨vP, hrcP, htrP, hd2⟩ |
      ⟨piP, ctP, sP, hpiP, hctP, hcfP, hsP, hd2⟩
      · -- both fields falsy: both runs are skips
        subst d1
        subst d2
        exact ⟨vf_fixed_skip d' _ _ _ vE ((readContact_congr d' d _ F1).trans hrcE) htrE,
          vf_fixed_skip d' _ _ _ vP ((readContact_congr d' d _ F1).trans hrcP) htrP⟩
      · -- email falsy, phone flagged
        subst d1
        subst d2
        have hd'pi : dget d' "personalInfo" = some (.dict
            (dset piP "contact" (.dict (dset ctP "phoneValid" (.bool (validate_phone sP)))))) := by
          rw [F1, dget_dset_self]
        have hpc : dget (dset piP "contact"
              (.dict (dset ctP "phoneValid" (.bool (validate_phone sP))))) "contact" =
            some (.dict (dset ctP "phoneValid" (.bool (validate_phone sP)))) :=
          dget_dset_self _ _ _
        constructor
        · have hvE : (dget ctP "email").getD .null = vE := by
            have heq := (readContact_of_dicts d piP ctP "email" hpiP hctP).symm.trans hrcE
            injection heq
          have hread : readContactField d' "email" = .ok vE := by
            rw [readContact_of_dicts d' _ _ "email" hd'pi hpc,
              dget_dset_ne _ "phoneValid" "email" _ (by decide), hvE]
          exact vf_fixed_skip d' _ _ _ vE hread htrE
        · have hph : dget (dset ctP "phoneValid" (.bool (validate_phone sP))) "phone" =
              some (.str sP) := by
            rw [dget_dset_ne _ "phoneValid" "phone" _ (by decide)]
            exact hcfP
          exact vf_fixed_set d' "phone" "phoneValid" validate_phone _ _ sP hd'pi hpc hph hsP
            (dget_dset_self _ _ _)
    · rcases vf_cases d1 d2 _ _ _ h2 with ⟨vP, hrcP, htrP, hd2⟩ |
      ⟨piP, ctP, sP, hpiP, hctP, hcfP, hsP, hd2⟩
      · -- email flagged, phone falsy
        subst d1
        subst d2
        have hd'pi : dget d' "personalInfo" = some (.dict
            (dset piE "contact" (.dict (dset ctE "emailValid" (.bool (validate_email sE)))))) := by
          rw [F1, dget_dset_self]
        have hpc : dget (dset piE "contact"
              (.dict (dset ctE "emailValid" (.bool (validate_email sE))))) "contact" =
            some (.dict (dset ctE "emailValid" (.bool (validate_email sE)))) :=
          dget_dset_self _ _ _
        constructor
        · have hem : dget (dset ctE "emailValid" (.bool (validate_email sE))) "email" =
              some (.str sE) := by
            rw [dget_dset_ne _ "emailValid" "email" _ (by decide)]
            exact hcfE
          exact vf_fixed_set d' "email" "emailValid" validate_email _ _ sE hd'pi hpc hem hsE
            (dget_dset_self _ _ _)
        · have hd1pi : dget d' "personalInfo" =
              dget (dset d "personalInfo" (.dict (dset piE "contact"
                (.dict (dset ctE "emailValid" (.bool (validate_email sE))))))) "personalInfo" :=
            F1
          exact vf_fixed_skip d' _ _ _ vP ((readContact_congr d' _ _ hd1pi).trans hrcP) htrP
      · -- both flagged
        subst d1
        rw [dget_dset_self] at hpiP
        injection hpiP with hpiP1
        injection hpiP1 with hpiP2
        subst hpiP2
        rw [dget_dset_self] at hctP
        injection hctP with hctP1
        injection hctP1 with hctP2
        subst hctP2
        subst d2
        have hd'pi : dget d' "personalInfo" = some (.dict
            (dset (dset piE "contact" (.dict (dset ctE "emailValid" (.bool (validate_email sE)))))
              "contact" (.dict (dset (dset ctE "emailValid" (.bool (validate_email sE)))
                "phoneValid" (.bool (validate_phone sP)))))) := by
          rw [F1, dget_dset_self]
        have hpc : dget (dset (dset piE "contact"
              (.dict (dset ctE "emailValid" (.bool (validate_email sE)))))
              "contact" (.dict (dset (dset ctE "emailValid" (.bool (validate_email sE)))
                "phoneValid" (.bool (validate_phone sP))))) "contact" =
            some (.dict (dset (dset ctE "emailValid" (.bool (validate_email sE)))
              "phoneValid" (.bool (validate_phone sP)))) :=
          dget_dset_self _ _ _
        constructor
        · have hem : dget (dset (dset ctE "emailValid" (.bool (validate_email sE)))
                "phoneValid" (.bool (validate_phone sP))) "email" = some (.str sE) := by
            rw [dget_dset_ne _ "phoneValid" "email" _ (by decide),
              dget_dset_ne _ "emailValid" "email" _ (by decide)]
            exact hcfE
          have hfl : dget (dset (dset ctE "emailValid" (.bool (validate_email sE)))
                "phoneValid" (.bool (validate_phone sP))) "emailValid" =
              some (.bool (validate_email sE)) := by
            rw [dget_dset_ne _ "phoneValid" "emailValid" _ (by decide)]
            exact dget_dset_self _ _ _
          exact vf_fixed_set d' "email" "emailValid" validate_email _ _ sE hd'pi hpc hem hsE hfl
        · have hph : dget (dset (dset ctE "emailValid" (.bool (validate_email sE)))
                "phoneValid" (.bool (validate_phone sP))) "phone" = some (.str sP) := by
            rw [dget_dset_ne _ "phoneValid" "phone" _ (by decide)]
            exact hcfP
          exact vf_fixed_set d' "phone" "phoneValid" validate_phone _ _ sP hd'pi hpc hph hsP
            (dget_dset_self _ _ _)
  have hS2 : ppSummaryStep nowYear nowMonth d' = .ok (dset d' "summary"
      (.dict (dset (summaryCoerce (some (.str σs))) "totalYearsOfExperience" (.float t)))) := by
    unfold ppSummaryStep
    have hexp : dget d' "experience" = dget d2 "experience" := by
      rw [fr54 _ (by decide) (by decide) (by decide), fr43 _ (by decide), fr32 _ (by decide)]
    rw [hexp, hcalc]
    try dsimp only
    rw [F3]
  have hC2 : ppConfidenceStep (dset d' "summary"
        (.dict (dset (summaryCoerce (some (.str σs))) "totalYearsOfExperience" (.float t)))) =
      .ok (dset (dset d' "summary"
        (.dict (dset (summaryCoerce (some (.str σs))) "totalYearsOfExperience" (.float t))))
        "confidenceScores" (.dict (confidenceScoresOf d3 ct4))) := by
    unfold ppConfidenceStep
    have hpi3 : dget (dset d' "summary"
        (.dict (dset (summaryCoerce (some (.str σs))) "totalYearsOfExperience" (.float t))))
          "personalInfo" = dget d3 "personalInfo" := by
      rw [dget_dset_ne _ "summary" "personalInfo" _ (by decide), F1, ← fr32 _ (by decide)]
    rw [hpi3, hct4]
    try dsimp only
    have hcs : confidenceScoresOf (dset d' "summary"
        (.dict (dset (summaryCoerce (some (.str σs))) "totalYearsOfExperience" (.float t)))) ct4 =
        confidenceScoresOf d3 ct4 := by
      unfold confidenceScoresOf
      have hKe : dget (dset d' "summary"
          (.dict (dset (summaryCoerce (some (.str σs))) "totalYearsOfExperience" (.float t))))
            "experience" = dget d3 "experience" := by
        rw [dget_dset_ne _ "summary" "experience" _ (by decide),
          fr54 _ (by decide) (by decide) (by decide), fr43 _ (by decide)]
      have hKd : dget (dset d' "summary"
          (.dict (dset (summaryCoerce (some (.str σs))) "totalYearsOfExperience" (.float t))))
            "education" = dget d3 "education" := by
        rw [dget_dset_ne _ "summary" "education" _ (by decide),
          fr54 _ (by decide) (by decide) (by decide), fr43 _ (by decide)]
      have hKs : dget (dset d' "summary"
          (.dict (dset (summaryCoerce (some (.str σs))) "totalYearsOfExperience" (.float t))))
            "skills" = dget d3 "skills" := by
        rw [dget_dset_ne _ "summary" "skills" _ (by decide),
          fr54 _ (by decide) (by decide) (by decide), fr43 _ (by decide)]
      rw [hKe, hKd, hKs]
    rw [hcs]
  have hF2 : ppFlatStep (dset (dset d' "summary"
        (.dict (dset (summaryCoerce (some (.str σs))) "totalYearsOfExperience" (.float t))))
        "confidenceScores" (.dict (confidenceScoresOf d3 ct4))) = .ok d' := by
    unfold ppFlatStep
    have hpiE4 : dget (dset (dset d' "summary"
        (.dict (dset (summaryCoerce (some (.str σs))) "totalYearsOfExperience" (.float t))))
        "confidenceScores" (.dict (confidenceScoresOf d3 ct4))) "personalInfo" =
        dget d4 "personalInfo" := by
      rw [dget_dset_ne _ "confidenceScores" "personalInfo" _ (by decide),
        dget_dset_ne _ "summary" "personalInfo" _ (by decide), F1, ← fr32 _ (by decide),
        ← fr43 _ (by decide)]
    rw [hpiE4, hnm]
    try dsimp only
    rw [hctf]
    try dsimp only
    have hfse4 : flatSummaryOf (dset (dset d' "summary"
        (.dict (dset (summaryCoerce (some (.str σs))) "totalYearsOfExperience" (.float t))))
        "confidenceScores" (.dict (confidenceScoresOf d3 ct4))) = .str σs := by
      unfold flatSummaryOf
      rw [dget_dset_ne _ "confidenceScores" "summary" _ (by decide), dget_dset_self]
      rfl
    rw [hfse4]
    show Except.ok (dset (dset (dset (dset (dset d' "summary"
        (.dict (dset (summaryCoerce (some (.str σs))) "totalYearsOfExperience" (.float t))))
        "confidenceScores" (.dict (confidenceScoresOf d3 ct4))) "name" nm)
        "contact_info" (flatContactInfoOf ctf)) "summary" (.str σs)) = Except.ok d'
    have hn4 : dget (dset (dset d' "summary"
        (.dict (dset (summaryCoerce (some (.str σs))) "totalYearsOfExperience" (.float t))))
        "confidenceScores" (.dict (confidenceScoresOf d3 ct4))) "name" = some nm := by
      rw [dget_dset_ne _ "confidenceScores" "name" _ (by decide),
        dget_dset_ne _ "summary" "name" _ (by decide), F5a]
    rw [dset_eq_self _ "name" _ hn4]
    have hc4 : dget (dset (dset d' "summary"
        (.dict (dset (summaryCoerce (some (.str σs))) "totalYearsOfExperience" (.float t))))
        "confidenceScores" (.dict (confidenceScoresOf d3 ct4))) "contact_info" =
        some (flatContactInfoOf ctf) := by
      rw [dget_dset_ne _ "confidenceScores" "contact_info" _ (by decide),
        dget_dset_ne _ "summary" "contact_info" _ (by decide), F5b]
    rw [dset_eq_self _ "contact_info" _ hc4]
    rw [dset_overwrite_across d' "summary" "confidenceScores" _ _ _ (by decide)]
    rw [dset_eq_self d' "summary" _ F3, dset_eq_self d' "confidenceScores" _ F4]
  unfold post_process
  rw [hEP.1]
  try dsimp only
  rw [hEP.2]
  try dsimp only
  rw [hS2]
  try dsimp only
  rw [hC2]
  try dsimp only
  exact hF2

/-- C7 counterexample: for the profile `{"summary": {"text": 5}}` the
first application leaves `5` as the flattened top-level summary (the
dict's `text` entry is not a string), while the second application
coerces that `5` away and produces `""` — the summary field of the
flattened view differs between one and two applications. -/
theorem C7_counterexample_nonstring_text :
    (post_process 2024 1 [("summary", .dict [("text", .int 5)])]).map
        (fun e => dget e "summary") = .ok (some (.int 5)) ∧
    ((post_process 2024 1 [("summary", .dict [("text", .int 5)])]).bind
        (post_process 2024 1)).map (fun e => dget e "summary") = .ok (some (.str "")) ∧
    JVal.int 5 ≠ JVal.str "" := by
  refine ⟨by rfl, by rfl, ?_⟩
  intro hcontr
  exact JVal.noConfusion hcontr

/-- C7 witness: the amended idempotence theorem applied to the concrete
profile `{"summary": "hi", "skills": ["Python"]}` and its post-processed
output. -/
theorem C7_amended_witness :
    post_process 2024 1 [("summary", JVal.str "hi"),
      ("skills", JVal.list [.str "Python"]),
      ("confidenceScores", JVal.dict [
        ("overall", .float 0.85), ("contactInfo", .float 0.5), ("experience", .float 0.3),
        ("education", .float 0.4), ("skills", .float 0.75)]),
      ("name", JVal.str "Not found"),
      ("contact_info", JVal.dict [("email", .str "Not found"), ("phone", .str "Not found"),
        ("linkedin", .str "Not found"), ("location", .str "Not found"),
        ("portfolio", .str "Not found")])] = .ok [("summary", JVal.str "hi"),
      ("skills", JVal.list [.str "Python"]),
      ("confidenceScores", JVal.dict [
        ("overall", .float 0.85), ("contactInfo", .float 0.5), ("experience", .float 0.3),
        ("education", .float 0.4), ("skills", .float 0.75)]),
      ("name", JVal.str "Not found"),
      ("contact_info", JVal.dict [("email", .str "Not found"), ("phone", .str "Not found"),
        ("linkedin", .str "Not found"), ("location", .str "Not found"),
        ("portfolio", .str "Not found")])] :=
  C7_amended_post_process_idempotent 2024 1
    [("summary", .str "hi"), ("skills", .list [.str "Python"])] _ (by rfl) (by rfl)
